import Mathlib

/-!
Verification of the request-orchestration layer of the Places lookup service
(`src/app/api/lookup/route.ts`): the in-memory rate limiter, the POST lookup
orchestrator (geocoding, candidate mapping, place-details enrichment) and the
GET photo proxy.  JavaScript `undefined`/`null`/value distinctions, optional
chaining (`a?.b`), nullish coalescing (`x ?? y`) and string truthiness are
modelled explicitly.  Outbound `fetch` calls are modelled by oracle inputs
(the response the upstream would give) plus an effects log recording which
calls were issued.
-/

namespace Lookup

/-- A JavaScript object field: absent (`undefined`), `null`, or a value. -/
inductive JField (α : Type) where
  | absent
  | jnull
  | val (a : α)
deriving DecidableEq

instance (α : Type) : Inhabited (JField α) := ⟨JField.absent⟩

/-- Optional chaining `a?.f`: yields `undefined` when `a` is `undefined` or `null`. -/
def JField.chain {α β : Type} : JField α → (α → JField β) → JField β
  | .absent, _ => .absent
  | .jnull, _ => .absent
  | .val a, f => f a

/-- Nullish coalescing with `null` on the right: `x ?? null`. -/
def JField.orNull {α : Type} : JField α → JField α
  | .absent => .jnull
  | .jnull => .jnull
  | .val a => .val a

/-- JavaScript truthiness of a string-or-null-or-undefined field:
`undefined`, `null` and the empty string are falsy. -/
def JField.truthyStr : JField String → Bool
  | .absent => false
  | .jnull => false
  | .val s => s != ""

/-- JavaScript truthiness of a `string | null` value (`null` and `""` falsy). -/
def strTruthy : Option String → Bool
  | none => false
  | some s => s != ""

/-- Is `sub` a contiguous sublist of the first list? -/
def containsSub : List Char → List Char → Bool
  | [], sub => sub.isEmpty
  | a :: rest, sub => sub.isPrefixOf (a :: rest) || containsSub rest sub

/-- JS `String.prototype.includes`: substring containment. -/
def includesSub (s needle : String) : Bool := containsSub s.data needle.data

/-- JS `String.prototype.startsWith`. -/
def jsStartsWith (s pre : String) : Bool := pre.data.isPrefixOf s.data

/-! ## Rate limiter (route.ts lines 8–30) -/

/-- `const WINDOW_MS = 60_000`. -/
def WINDOW_MS : Int := 60000

/-- `const MAX_REQUESTS = 30`. -/
def MAX_REQUESTS : Nat := 30

/-- The 429 message returned by `rateLimit`. -/
def rateLimitMsg : String := "Rate limit exceeded. Please try again shortly."

/-- `rateLimit` (route.ts lines 19–30).  The `buckets` map is modelled
extensionally as a function from client id to its stored timestamp list
(`buckets.get(ip) ?? []` is the function's value).  Returns the updated map
and the error message (`some` = rejected), exactly as the source: filter the
stored array to timestamps `t` with `now - t < WINDOW_MS`, push `now`, store
back, reject iff the stored length exceeds `MAX_REQUESTS`. -/
def rateLimit (buckets : String → List Int) (ip : String) (now : Int) :
    (String → List Int) × Option String :=
  let arr := buckets ip
  let recent := (arr.filter (fun t => decide (now - t < WINDOW_MS))) ++ [now]
  let buckets' := fun k => if k = ip then recent else buckets k
  (buckets', if recent.length > MAX_REQUESTS then some rateLimitMsg else none)

/-! ## Geocode records and candidate mapping (route.ts lines 154–160) -/

/-- The `location` object inside a geocode result's `geometry`. -/
structure GeoLocation where
  lat : JField Rat
  lng : JField Rat
deriving DecidableEq

/-- The `geometry` object of a geocode result. -/
structure GeoGeometry where
  location : JField GeoLocation
deriving DecidableEq

/-- One record of `geoData.results`; every field may be absent or null.
`address_components` payloads are kept opaque as strings. -/
structure GeoResult where
  formatted_address : JField String
  place_id : JField String
  geometry : JField GeoGeometry
  address_components : JField String
deriving DecidableEq

instance : Inhabited GeoResult :=
  ⟨{ formatted_address := .absent, place_id := .absent, geometry := .absent,
     address_components := .absent }⟩

/-- A mapped geocode candidate (the object literal at route.ts lines 154–160). -/
structure Candidate where
  formatted_address : JField String
  place_id : JField String
  lat : JField Rat
  lng : JField Rat
  address_components : JField String
deriving DecidableEq

instance : Inhabited Candidate :=
  ⟨{ formatted_address := .absent, place_id := .absent, lat := .absent,
     lng := .absent, address_components := .absent }⟩

/-- The mapping function applied to each upstream record (route.ts 154–160):
`formatted_address` is copied through unchanged; `place_id` and
`address_components` get `?? null`; `lat`/`lng` are read through the optional
chain `r.geometry?.location?.lat` then `?? null`. -/
def toCandidate (r : GeoResult) : Candidate :=
  { formatted_address := r.formatted_address
    place_id := r.place_id.orNull
    lat := ((r.geometry.chain GeoGeometry.location).chain GeoLocation.lat).orNull
    lng := ((r.geometry.chain GeoGeometry.location).chain GeoLocation.lng).orNull
    address_components := r.address_components.orNull }

/-! ## Place details fetch (route.ts lines 89–104) -/

/-- The enriched place record returned by the Places v1 details call,
kept opaque (the handler never inspects it, only stores it or `null`). -/
def PlaceData : Type := String

instance : DecidableEq PlaceData := fun a b => String.decEq a b

/-- The resolved response of the details `fetch` call: `ok`/`status`, the
resolved `resp.text()` value (its `.catch` makes it total) and the resolved
`resp.json()` value used on the success path. -/
structure DetailsResp where
  ok : Bool
  status : Nat
  bodyText : String
  json : PlaceData
deriving DecidableEq

/-- Oracle for the details `fetch`: either the promise rejects (an exception
whose `message` may be absent) or it resolves to a response. -/
inductive DetailsFetch where
  | reject (msg : Option String)
  | resolve (r : DetailsResp)
deriving DecidableEq

/-- The error message built at route.ts line 100:
`` `Places v1 details failed with status ${resp.status}${text ? `: ${text}` : ''}` ``. -/
def detailsFailText (status : Nat) (text : String) : String :=
  "Places v1 details failed with status " ++ toString status ++
    (if text == "" then "" else ": " ++ text)

/-- `fetchPlaceDetailsNew` (route.ts 89–104): throws (models as `.error`) when
the fetch rejects or the response is not ok, otherwise returns the JSON body.
The thrown value's `message` is `none` for a message-less rejection. -/
def fetchPlaceDetailsNew (f : DetailsFetch) : Except (Option String) PlaceData :=
  match f with
  | .reject m => .error m
  | .resolve r =>
    if r.ok then .ok r.json
    else .error (some (detailsFailText r.status r.bodyText))

/-! ## POST lookup handler (route.ts lines 106–187) -/

/-- The geocoding fetch's resolved response: `ok`/`status` and the parsed
body's `results` field (`none` models `geoData.results` not being an array). -/
structure GeoResponse where
  ok : Bool
  status : Nat
  results : Option (List GeoResult)
deriving DecidableEq

/-- The outcome of `await req.json()` + `BodySchema.safeParse`:
`invalidJson` = body parse threw; `schemaFail` = zod validation failed (with
its flattened error, kept opaque); `ok` = validated data — a non-empty trimmed
address and an optional non-negative integer index (zod guarantees the integer
is ≥ 0, hence `Option Nat`). -/
inductive BodyParse where
  | invalidJson
  | schemaFail (err : String)
  | ok (address : String) (selectedIndex : Option Nat)
deriving DecidableEq

/-- All inputs the POST handler's decision logic consumes: rate-limiter state
and clock, the `GOOGLE_KEY` env value, the parsed body, the two upstream
oracles, and the two `Date.now()` readings at lines 128 and 180. -/
structure PostEnv where
  buckets : String → List Int
  ip : String
  now : Int
  googleKey : Option String
  body : BodyParse
  geo : GeoResponse
  details : DetailsFetch
  tStart : Int
  tEnd : Int

/-- A response produced by the POST handler: an error JSON
(`NextResponse.json({error}, {status})`) or the lookup-result JSON with the
`geocode` object, `place`, `warnings` and the optional `latencyMs` field
(absent in the empty-candidates shape at lines 144–151). -/
inductive PostResponse where
  | errorJson (status : Nat) (error : String)
  | result (status : Nat) (query : String) (candidates : List Candidate)
      (selectedIndex : Nat) (place : Option PlaceData) (warnings : List String)
      (latencyMs : Option Int)
deriving DecidableEq

/-- Warning literal pushed at route.ts line 162. -/
def multipleMatchesMsg : String := "Multiple matches found; showing best match."

/-- Warning literal of the empty-results shape (line 148). -/
def noMatchMsg : String := "No match found."

/-- Warning literal pushed at line 169. -/
def noPlaceIdMsg : String := "No place_id from geocoding; place details not available."

/-- Warning literal pushed at line 174. -/
def detailsCaveatMsg : String :=
  "Places details returned from Places API (New); attribute availability varies by place."

/-- Fallback of `e?.message ?? 'Place details fetch failed'` (line 176). -/
def detailsFallbackMsg : String := "Place details fetch failed"

/-- The index selection at route.ts line 164: the supplied index when present
and in `[0, len)` (non-negativity is already guaranteed by the schema),
otherwise `0`. -/
def selectIdx (selectedIndex : Option Nat) (len : Nat) : Nat :=
  match selectedIndex with
  | some i => if i < len then i else 0
  | none => 0

/-- The warning list accumulated before the enrichment step: the
multiple-matches push at route.ts line 162. -/
def baseWarnings (cands : List Candidate) : List String :=
  if cands.length > 1 then [multipleMatchesMsg] else []

/-- `candidates[idx]` (route.ts line 167); the access is in bounds whenever
the candidate list is non-empty. -/
def chosenOf (cands : List Candidate) (si : Option Nat) : Candidate :=
  cands.getD (selectIdx si cands.length) default

/-- `POST` (route.ts 106–187).  Returns the response together with a flag
recording whether the place-details upstream was called (the `fetch` inside
`fetchPlaceDetailsNew` was issued).  The bucket-map update performed by
`rateLimit` is the first component of `rateLimit`'s own result. -/
def POST (env : PostEnv) : PostResponse × Bool :=
  match (rateLimit env.buckets env.ip env.now).2 with
  | some rl => (.errorJson 429 rl, false)
  | none =>
    if !strTruthy env.googleKey then
      (.errorJson 500 "Server is not configured with GOOGLE_MAPS_API_KEY", false)
    else
      match env.body with
      | .invalidJson => (.errorJson 400 "Invalid JSON body", false)
      | .schemaFail e => (.errorJson 400 e, false)
      | .ok address selectedIndex =>
        if !env.geo.ok then
          (.errorJson 502 ("Geocoding failed with status " ++ toString env.geo.status), false)
        else
          match env.geo.results with
          | none => (.result 200 address [] 0 none [noMatchMsg] none, false)
          | some rs =>
            if rs.length = 0 then
              (.result 200 address [] 0 none [noMatchMsg] none, false)
            else
              if !(chosenOf (rs.map toCandidate) selectedIndex).place_id.truthyStr then
                (.result 200 address (rs.map toCandidate)
                  (selectIdx selectedIndex (rs.map toCandidate).length) none
                  (baseWarnings (rs.map toCandidate) ++ [noPlaceIdMsg])
                  (some (env.tEnd - env.tStart)), false)
              else
                match fetchPlaceDetailsNew env.details with
                | .ok p =>
                  (.result 200 address (rs.map toCandidate)
                    (selectIdx selectedIndex (rs.map toCandidate).length) (some p)
                    (baseWarnings (rs.map toCandidate) ++ [detailsCaveatMsg])
                    (some (env.tEnd - env.tStart)), true)
                | .error m =>
                  (.result 200 address (rs.map toCandidate)
                    (selectIdx selectedIndex (rs.map toCandidate).length) none
                    (baseWarnings (rs.map toCandidate) ++ [m.getD detailsFallbackMsg])
                    (some (env.tEnd - env.tStart)), true)

/-! ## GET photo proxy (route.ts lines 190–268) -/

/-- The JSON body of the photo media endpoint's `skipHttpRedirect` response;
only `photoUri` is read (`data?.photoUri`). -/
structure PhotoJson where
  photoUri : JField String
deriving DecidableEq

/-- The resolved response of the photo media `fetch`: status, `content-type`
header, the resolved `resp.json().catch(() => null)` value (`none` = parse
failed, i.e. `data` is `null`), the `location` header, and the body bytes
(`arrayBuffer`, abstracted as a string). -/
structure PhotoUpstream where
  status : Nat
  contentType : Option String
  jsonData : Option PhotoJson
  location : Option String
  bytes : String
deriving DecidableEq

/-- The resolved response of a secondary media-URL `fetch`. -/
structure MediaResp where
  ok : Bool
  contentType : Option String
  bytes : String
deriving DecidableEq

/-- An outbound `fetch` issued by the GET handler: the photo media call
(with its resource name, `maxWidthPx` and the `maxHeightPx` param when set)
or a secondary fetch of a resolved media URL. -/
inductive FetchEvent where
  | photoMedia (name : String) (maxW : String) (maxH : Option String)
  | mediaUrl (url : String)
deriving DecidableEq

/-- All inputs the GET handler's decision logic consumes. -/
structure GetEnv where
  buckets : String → List Int
  ip : String
  now : Int
  googleKey : Option String
  qPhotoName : Option String
  qName : Option String
  qPhotoRef : Option String
  qMaxWidthPx : Option String
  qMaxwidth : Option String
  qMaxHeightPx : Option String
  qMaxheight : Option String
  upstream : PhotoUpstream
  media : MediaResp

/-- A `NextResponse` built by the GET handler: status, body (text or bytes)
and the two headers the code may set. -/
structure GetResponse where
  status : Nat
  body : String
  contentType : Option String
  cacheControl : Option String
deriving DecidableEq

/-- `fetch`'s `Response.ok`: status in the 2xx range. -/
def statusOk (s : Nat) : Bool := decide (200 ≤ s) && decide (s < 300)

/-- The redirect test at route.ts line 241: `status >= 300 && status < 400`. -/
def statusRedirect (s : Nat) : Bool := decide (300 ≤ s) && decide (s < 400)

/-- The cache header value set on every 200 photo response. -/
def cacheValue : String := "public, max-age=86400"

/-- The 400 message at route.ts lines 205–207. -/
def badPhotoNameMsg : String :=
  "photoName must be a full Places photo resource name (starts with \"places/\")"

/-- `photoName` resolution (line 196): `photoName ?? name ?? photoRef`. -/
def photoNameOf (env : GetEnv) : Option String :=
  env.qPhotoName <|> env.qName <|> env.qPhotoRef

/-- `maxWidthPx` resolution (line 197): `maxWidthPx ?? maxwidth ?? '400'`. -/
def maxWidthOf (env : GetEnv) : String :=
  (env.qMaxWidthPx <|> env.qMaxwidth).getD "400"

/-- The `maxHeightPx` query param actually set on the upstream URL
(lines 198 and 212): the coalesced value when truthy, otherwise unset. -/
def maxHeightOf (env : GetEnv) : Option String :=
  let mh := env.qMaxHeightPx <|> env.qMaxheight
  if strTruthy mh then mh else none

/-- Build a 200 binary response (the repeated `new NextResponse(Buffer...)`
blocks at lines 231–237, 248–254 and 261–267): body bytes, the upstream
content type defaulted to `image/jpeg`, and the public 24h cache header. -/
def binaryResponse (contentType : Option String) (bytes : String) : GetResponse :=
  { status := 200, body := bytes, contentType := some (contentType.getD "image/jpeg")
    cacheControl := some cacheValue }

/-- `GET` (route.ts 190–268).  Returns the response and the list of outbound
fetches issued, in order. -/
def GET (env : GetEnv) : GetResponse × List FetchEvent :=
  match (rateLimit env.buckets env.ip env.now).2 with
  | some rl => ({ status := 429, body := rl, contentType := none, cacheControl := none }, [])
  | none =>
    if !strTruthy env.googleKey then
      ({ status := 500, body := "Server not configured", contentType := none,
         cacheControl := none }, [])
    else
      match photoNameOf env with
      | none =>
        ({ status := 400, body := "photoName required", contentType := none,
           cacheControl := none }, [])
      | some photoName =>
        if photoName == "" then
          ({ status := 400, body := "photoName required", contentType := none,
             cacheControl := none }, [])
        else if !jsStartsWith photoName "places/" then
          ({ status := 400, body := badPhotoNameMsg, contentType := none,
             cacheControl := none }, [])
        else
          let ev := FetchEvent.photoMedia photoName (maxWidthOf env) (maxHeightOf env)
          let resp := env.upstream
          if statusOk resp.status && includesSub (resp.contentType.getD "") "application/json" then
            match resp.jsonData with
            | none =>
              ({ status := 502, body := "Failed to resolve photo media URL",
                 contentType := none, cacheControl := none }, [ev])
            | some d =>
              match d.photoUri with
              | .val u =>
                if u == "" then
                  ({ status := 502, body := "Failed to resolve photo media URL",
                     contentType := none, cacheControl := none }, [ev])
                else if !env.media.ok then
                  ({ status := 502, body := "Failed to fetch photo", contentType := none,
                     cacheControl := none }, [ev, .mediaUrl u])
                else
                  (binaryResponse env.media.contentType env.media.bytes, [ev, .mediaUrl u])
              | _ =>
                ({ status := 502, body := "Failed to resolve photo media URL",
                   contentType := none, cacheControl := none }, [ev])
          else if statusRedirect resp.status then
            match resp.location with
            | none =>
              ({ status := 502, body := "Failed to fetch photo", contentType := none,
                 cacheControl := none }, [ev])
            | some loc =>
              if loc == "" then
                ({ status := 502, body := "Failed to fetch photo", contentType := none,
                   cacheControl := none }, [ev])
              else if !env.media.ok then
                ({ status := 502, body := "Failed to fetch photo", contentType := none,
                   cacheControl := none }, [ev, .mediaUrl loc])
              else
                (binaryResponse env.media.contentType env.media.bytes, [ev, .mediaUrl loc])
          else if !statusOk resp.status then
            ({ status := 502, body := "Failed to fetch photo", contentType := none,
               cacheControl := none }, [ev])
          else
            (binaryResponse resp.contentType resp.bytes, [ev])

/-! ## Theorems -/

/-- C1: on every rate-limiter call, the stored sequence for the client is the
old sequence purged to entries `t` with `now - t < 60000` with the current
timestamp appended, the call is rejected iff the resulting count strictly
exceeds 30, and every stored entry is the fresh timestamp or lies inside the
trailing window (out-of-window timestamps never contribute to the count).
The function is total, so it never throws. -/
theorem rateLimit_spec (buckets : String → List Int) (ip : String) (now : Int) :
    (rateLimit buckets ip now).1 ip
        = (buckets ip).filter (fun t => decide (now - t < WINDOW_MS)) ++ [now]
      ∧ ((rateLimit buckets ip now).2.isSome
          ↔ ((rateLimit buckets ip now).1 ip).length > MAX_REQUESTS)
      ∧ ∀ t ∈ (rateLimit buckets ip now).1 ip, t = now ∨ now - t < WINDOW_MS := by
  refine ⟨by simp [rateLimit], ?_, ?_⟩
  · by_cases h : ((buckets ip).filter (fun t => decide (now - t < WINDOW_MS)) ++ [now]).length
        > MAX_REQUESTS <;>
      simp [rateLimit, h]
  · intro t ht
    have h1 : (rateLimit buckets ip now).1 ip
        = (buckets ip).filter (fun t => decide (now - t < WINDOW_MS)) ++ [now] := by
      simp [rateLimit]
    rw [h1] at ht
    rcases List.mem_append.1 ht with h | h
    · exact Or.inr (by simpa using (List.mem_filter.1 h).2)
    · exact Or.inl (by simpa using h)

/-- Concrete stored buckets for the C1 witness. -/
def rlBuckets : String → List Int := fun _ => [-100000, 50, 70]

/-- C1 witness: the rejection criterion and the in-window property of a stored
entry, at a concrete map, client and clock. -/
theorem rateLimit_spec_witness :
    ((rateLimit rlBuckets "c" 100).2.isSome
        ↔ ((rateLimit rlBuckets "c" 100).1 "c").length > MAX_REQUESTS)
      ∧ ((50 : Int) = 100 ∨ (100 : Int) - 50 < WINDOW_MS) :=
  ⟨(rateLimit_spec rlBuckets "c" 100).2.1,
   (rateLimit_spec rlBuckets "c" 100).2.2 50 (by decide)⟩

/-- C8: the candidate mapping is total (it is a function), and every missing
link of the `geometry → location → lat/lng` chain yields `null` coordinates
rather than a failure; missing `place_id` or `address_components` likewise
become `null`. -/
theorem toCandidate_total (r : GeoResult) :
    ((r.geometry = .absent ∨ r.geometry = .jnull) →
        (toCandidate r).lat = .jnull ∧ (toCandidate r).lng = .jnull)
      ∧ (∀ g, r.geometry = .val g → g.location = .absent ∨ g.location = .jnull →
        (toCandidate r).lat = .jnull ∧ (toCandidate r).lng = .jnull)
      ∧ (∀ g l, r.geometry = .val g → g.location = .val l →
        ((l.lat = .absent ∨ l.lat = .jnull) → (toCandidate r).lat = .jnull)
          ∧ ((l.lng = .absent ∨ l.lng = .jnull) → (toCandidate r).lng = .jnull))
      ∧ ((r.place_id = .absent ∨ r.place_id = .jnull) → (toCandidate r).place_id = .jnull)
      ∧ ((r.address_components = .absent ∨ r.address_components = .jnull) →
        (toCandidate r).address_components = .jnull) := by
  refine ⟨?_, ?_, ?_, ?_, ?_⟩
  · rintro (h | h) <;> simp [toCandidate, h, JField.chain, JField.orNull]
  · rintro g hg (h | h) <;> simp [toCandidate, hg, h, JField.chain, JField.orNull]
  · rintro g l hg hl
    exact ⟨by rintro (h | h) <;> simp [toCandidate, hg, hl, h, JField.chain, JField.orNull],
           by rintro (h | h) <;> simp [toCandidate, hg, hl, h, JField.chain, JField.orNull]⟩
  · rintro (h | h) <;> simp [toCandidate, h, JField.orNull]
  · rintro (h | h) <;> simp [toCandidate, h, JField.orNull]

/-- C8 witness: the all-absent upstream record maps to all-`null` optional
fields. -/
theorem toCandidate_total_witness :
    ((toCandidate default).lat = .jnull ∧ (toCandidate default).lng = .jnull)
      ∧ (toCandidate default).place_id = .jnull
      ∧ (toCandidate default).address_components = .jnull :=
  ⟨(toCandidate_total default).1 (Or.inl rfl),
   (toCandidate_total default).2.2.2.1 (Or.inl rfl),
   (toCandidate_total default).2.2.2.2 (Or.inl rfl)⟩

/-- C10: the candidate mapping copies `formatted_address` through unchanged —
an absent upstream `formatted_address` stays absent (undefined), never
becoming `null` — while `place_id`, `lat`, `lng` and `address_components` are
the only fields defaulted to `null` when absent. -/
theorem toCandidate_formatted_address (r : GeoResult) :
    (toCandidate r).formatted_address = r.formatted_address
      ∧ (r.formatted_address = .absent →
          (toCandidate r).formatted_address = .absent
            ∧ (toCandidate r).formatted_address ≠ .jnull)
      ∧ (r.place_id = .absent → (toCandidate r).place_id = .jnull)
      ∧ (r.geometry = .absent →
          (toCandidate r).lat = .jnull ∧ (toCandidate r).lng = .jnull)
      ∧ (r.address_components = .absent →
          (toCandidate r).address_components = .jnull) := by
  refine ⟨rfl, ?_, ?_, ?_, ?_⟩
  · intro h; rw [show (toCandidate r).formatted_address = r.formatted_address from rfl, h]
    exact ⟨rfl, by simp⟩
  · intro h; simp [toCandidate, h, JField.orNull]
  · intro h; simp [toCandidate, h, JField.chain, JField.orNull]
  · intro h; simp [toCandidate, h, JField.orNull]

/-- C10 witness: at the all-absent record, `formatted_address` is absent (not
`null`) while the four defaulted fields are `null`. -/
theorem toCandidate_formatted_address_witness :
    ((toCandidate default).formatted_address = .absent
        ∧ (toCandidate default).formatted_address ≠ .jnull)
      ∧ (toCandidate default).place_id = .jnull
      ∧ ((toCandidate default).lat = .jnull ∧ (toCandidate default).lng = .jnull) :=
  ⟨(toCandidate_formatted_address default).2.1 rfl,
   (toCandidate_formatted_address default).2.2.1 rfl,
   (toCandidate_formatted_address default).2.2.2.1 rfl⟩

/-- The selected index is in bounds whenever the list is non-empty. -/
theorem selectIdx_lt (si : Option Nat) (len : Nat) (h : 0 < len) :
    selectIdx si len < len := by
  unfold selectIdx
  cases si with
  | none => exact h
  | some i => by_cases hi : i < len <;> simp [hi, h]

/-- C2: every 200 lookup response satisfies the `LookupResult` invariant —
with a non-empty candidate list the returned index is the caller-supplied one
when it is in `[0, candidates.length)` and `0` otherwise (that is exactly
`selectIdx`), so it is always in bounds; with an empty list the index is `0`
and the place is `null`. -/
theorem post_result_selectedIndex (env : PostEnv) (s : Nat) (q : String)
    (cands : List Candidate) (idx : Nat) (pl : Option PlaceData) (w : List String)
    (lms : Option Int) (addr : String) (si : Option Nat)
    (hb : env.body = BodyParse.ok addr si)
    (h : (POST env).1 = PostResponse.result s q cands idx pl w lms) :
    s = 200
      ∧ (cands = [] → idx = 0 ∧ pl = none)
      ∧ (cands ≠ [] → idx < cands.length ∧ idx = selectIdx si cands.length) := by
  unfold POST at h
  rw [hb] at h
  cases hrl : (rateLimit env.buckets env.ip env.now).2 with
  | some rl => rw [hrl] at h; exact PostResponse.noConfusion h
  | none =>
    rw [hrl] at h
    cases hkey : strTruthy env.googleKey with
    | false => rw [hkey] at h; exact PostResponse.noConfusion h
    | true =>
      rw [hkey] at h
      cases hok : env.geo.ok with
      | false => rw [hok] at h; exact PostResponse.noConfusion h
      | true =>
        rw [hok] at h
        cases hres : env.geo.results with
        | none =>
          rw [hres] at h
          injection h with hs hq hc hi hp hw hl
          subst hs hc hi hp
          exact ⟨rfl, fun _ => ⟨rfl, rfl⟩, fun hne => absurd rfl hne⟩
        | some rs =>
          simp only [hres] at h
          by_cases hlen : rs.length = 0
          · rw [if_pos hlen] at h
            injection h with hs hq hc hi hp hw hl
            subst hs hc hi hp
            exact ⟨rfl, fun _ => ⟨rfl, rfl⟩, fun hne => absurd rfl hne⟩
          · rw [if_neg hlen] at h
            have hpos : 0 < (rs.map toCandidate).length := by
              simpa [List.length_map] using Nat.pos_of_ne_zero hlen
            cases hpid : (chosenOf (rs.map toCandidate) si).place_id.truthyStr with
            | false =>
              rw [hpid] at h
              injection h with hs hq hc hi hp hw hl
              subst hs hc hi hp
              refine ⟨rfl, fun he => absurd hpos (by simp [he]), fun _ => ?_⟩
              exact ⟨selectIdx_lt si _ hpos, rfl⟩
            | true =>
              rw [hpid] at h
              cases hdet : fetchPlaceDetailsNew env.details with
              | ok p =>
                rw [hdet] at h
                injection h with hs hq hc hi hp hw hl
                subst hs hc hi hp
                refine ⟨rfl, fun he => absurd hpos (by simp [he]), fun _ => ?_⟩
                exact ⟨selectIdx_lt si _ hpos, rfl⟩
              | error m =>
                rw [hdet] at h
                injection h with hs hq hc hi hp hw hl
                subst hs hc hi hp
                refine ⟨rfl, fun he => absurd hpos (by simp [he]), fun _ => ?_⟩
                exact ⟨selectIdx_lt si _ hpos, rfl⟩

/-- A single geocode record with a `place_id` but absent geometry. -/
def geoRecPid : GeoResult :=
  { formatted_address := .val "1 Main St", place_id := .val "pid1",
    geometry := .absent, address_components := .absent }

/-- A POST environment on the success path: admitted, configured, valid body
with an out-of-bounds selected index, one geocode result, details resolving. -/
def postEnvOk : PostEnv :=
  { buckets := fun _ => [], ip := "c", now := 0, googleKey := some "k",
    body := .ok "1 Main St" (some 5),
    geo := { ok := true, status := 200, results := some [geoRecPid] },
    details := .resolve { ok := true, status := 200, bodyText := "", json := "blob" },
    tStart := 10, tEnd := 17 }

/-- C2 witness: on a concrete admitted request with one candidate and an
out-of-bounds supplied index 5, the invariant instantiates — the effective
index is 0 and in bounds. -/
theorem post_result_selectedIndex_witness :
    (200 : Nat) = 200
      ∧ (selectIdx (some 5) [toCandidate geoRecPid].length < [toCandidate geoRecPid].length
          ∧ selectIdx (some 5) [toCandidate geoRecPid].length
              = selectIdx (some 5) [toCandidate geoRecPid].length) :=
  ⟨(post_result_selectedIndex postEnvOk 200 "1 Main St" [toCandidate geoRecPid]
      (selectIdx (some 5) [toCandidate geoRecPid].length) (some "blob")
      (baseWarnings [toCandidate geoRecPid] ++ [detailsCaveatMsg]) (some 7)
      "1 Main St" (some 5) rfl (by decide)).1,
   (post_result_selectedIndex postEnvOk 200 "1 Main St" [toCandidate geoRecPid]
      (selectIdx (some 5) [toCandidate geoRecPid].length) (some "blob")
      (baseWarnings [toCandidate geoRecPid] ++ [detailsCaveatMsg]) (some 7)
      "1 Main St" (some 5) rfl (by decide)).2.2 (by decide)⟩

/-- C3: a successful geocoding call with zero results yields the exact 200
empty shape — empty candidates, index 0, `null` place, the single "No match
found." warning — with no `latencyMs` field and without the place-details
upstream ever being called (the second component of `POST` is `false`). -/
theorem post_empty_results (env : PostEnv) (addr : String) (si : Option Nat)
    (hrl : (rateLimit env.buckets env.ip env.now).2 = none)
    (hkey : strTruthy env.googleKey = true)
    (hb : env.body = BodyParse.ok addr si)
    (hok : env.geo.ok = true)
    (hres : env.geo.results = some []) :
    POST env = (PostResponse.result 200 addr [] 0 none [noMatchMsg] none, false)
      ∧ ([noMatchMsg] : List String) ≠ [] := by
  refine ⟨?_, by simp⟩
  unfold POST
  rw [hrl, hb, hkey, hok, hres]
  simp

/-- A POST environment whose geocoding succeeds with zero results. -/
def postEnvEmpty : PostEnv :=
  { postEnvOk with geo := { ok := true, status := 200, results := some [] } }

/-- C3 witness: the empty-results shape at a concrete environment. -/
theorem post_empty_results_witness :
    POST postEnvEmpty
        = (PostResponse.result 200 "1 Main St" [] 0 none [noMatchMsg] none, false)
      ∧ ([noMatchMsg] : List String) ≠ [] :=
  post_empty_results postEnvEmpty "1 Main St" (some 5) (by decide) (by decide) rfl
    (by decide) (by decide)

/-- C4: when a request reaches the enrichment step and the details fetch
throws (rejection or non-success upstream status), the handler still returns
the 200 result shape: the thrown message (or its fallback) is appended to the
warnings, `place` is `null`, and the latency computation and payload assembly
still run; only the warnings differ from the success shape. -/
theorem post_enrichment_failure (env : PostEnv) (addr : String) (si : Option Nat)
    (rs : List GeoResult) (m : Option String)
    (hrl : (rateLimit env.buckets env.ip env.now).2 = none)
    (hkey : strTruthy env.googleKey = true)
    (hb : env.body = BodyParse.ok addr si)
    (hok : env.geo.ok = true)
    (hres : env.geo.results = some rs)
    (hlen : rs.length ≠ 0)
    (hpid : (chosenOf (rs.map toCandidate) si).place_id.truthyStr = true)
    (hfail : fetchPlaceDetailsNew env.details = Except.error m) :
    POST env
      = (PostResponse.result 200 addr (rs.map toCandidate)
          (selectIdx si (rs.map toCandidate).length) none
          (baseWarnings (rs.map toCandidate) ++ [m.getD detailsFallbackMsg])
          (some (env.tEnd - env.tStart)), true) := by
  unfold POST
  rw [hrl, hkey, hb, hok]
  simp only [hres]
  rw [if_neg hlen, hpid, hfail]
  rfl

/-- A POST environment whose details fetch rejects with message "boom". -/
def postEnvFail : PostEnv := { postEnvOk with details := .reject (some "boom") }

/-- C4 witness: the enrichment-failure 200 shape at a concrete environment. -/
theorem post_enrichment_failure_witness :
    POST postEnvFail
      = (PostResponse.result 200 "1 Main St" [toCandidate geoRecPid]
          (selectIdx (some 5) [toCandidate geoRecPid].length) none
          (baseWarnings [toCandidate geoRecPid] ++ [(some "boom").getD detailsFallbackMsg])
          (some (postEnvFail.tEnd - postEnvFail.tStart)), true) :=
  post_enrichment_failure postEnvFail "1 Main St" (some 5) [geoRecPid] (some "boom")
    (by decide) (by decide) rfl (by decide) rfl (by decide) (by decide) rfl

/-- The constructed details-failure message never equals the multiple-matches
warning (their 37-char prefixes differ). -/
theorem detailsFailText_ne (st : Nat) (t : String) :
    detailsFailText st t ≠ multipleMatchesMsg := by
  intro h
  have hd : ("Places v1 details failed with status ".data ++
        ((toString st).data ++ (if t == "" then "" else ": " ++ t).data))
      = multipleMatchesMsg.data := by
    have h2 := congrArg String.data h
    unfold detailsFailText at h2
    rw [String.data_append, String.data_append, List.append_assoc] at h2
    exact h2
  have hp : ("Places v1 details failed with status ".data).length = 37 := by decide
  have h37 := congrArg (List.take 37) hd
  rw [← hp, List.take_left] at h37
  exact absurd h37 (by decide)

/-- Membership of the multiple-matches warning in the pre-enrichment list. -/
theorem mem_baseWarnings_iff (cands : List Candidate) :
    multipleMatchesMsg ∈ baseWarnings cands ↔ cands.length > 1 := by
  unfold baseWarnings
  by_cases h : cands.length > 1 <;> simp [h]

/-- Membership after the final push, for a pushed message that is not the
multiple-matches warning. -/
theorem mem_warnings_push (cands : List Candidate) (x : String)
    (hx : x ≠ multipleMatchesMsg) :
    multipleMatchesMsg ∈ baseWarnings cands ++ [x] ↔ cands.length > 1 := by
  rw [List.mem_append]
  simp [mem_baseWarnings_iff, hx, Ne.symm hx]

/-- C7: a 200 lookup response's warnings contain the multiple-matches message
exactly when the candidate list has length strictly greater than 1 (whatever
index was selected); for lengths 0 and 1 it is absent.  The hypothesis rules
out an upstream exception whose own message happens to be that literal. -/
theorem post_multiple_matches_iff (env : PostEnv) (s : Nat) (q : String)
    (cands : List Candidate) (idx : Nat) (pl : Option PlaceData) (w : List String)
    (lms : Option Int)
    (h : (POST env).1 = PostResponse.result s q cands idx pl w lms)
    (hrej : ∀ m, env.details = DetailsFetch.reject (some m) → m ≠ multipleMatchesMsg) :
    multipleMatchesMsg ∈ w ↔ cands.length > 1 := by
  unfold POST at h
  cases hrl : (rateLimit env.buckets env.ip env.now).2 with
  | some rl => rw [hrl] at h; exact PostResponse.noConfusion h
  | none =>
    rw [hrl] at h
    cases hkey : strTruthy env.googleKey with
    | false => rw [hkey] at h; exact PostResponse.noConfusion h
    | true =>
      rw [hkey] at h
      cases hb : env.body with
      | invalidJson => rw [hb] at h; exact PostResponse.noConfusion h
      | schemaFail e => rw [hb] at h; exact PostResponse.noConfusion h
      | ok addr si =>
        rw [hb] at h
        cases hok : env.geo.ok with
        | false => rw [hok] at h; exact PostResponse.noConfusion h
        | true =>
          rw [hok] at h
          cases hres : env.geo.results with
          | none =>
            rw [hres] at h
            injection h with hs hq hc hi hp hw hl
            subst hc hw
            simp [noMatchMsg, multipleMatchesMsg]
          | some rs =>
            simp only [hres] at h
            by_cases hlen : rs.length = 0
            · rw [if_pos hlen] at h
              injection h with hs hq hc hi hp hw hl
              subst hc hw
              simp [noMatchMsg, multipleMatchesMsg]
            · rw [if_neg hlen] at h
              cases hpid : (chosenOf (rs.map toCandidate) si).place_id.truthyStr with
              | false =>
                rw [hpid] at h
                injection h with hs hq hc hi hp hw hl
                subst hc hw
                exact mem_warnings_push _ _ (by decide)
              | true =>
                rw [hpid] at h
                cases hdet : fetchPlaceDetailsNew env.details with
                | ok p =>
                  rw [hdet] at h
                  injection h with hs hq hc hi hp hw hl
                  subst hc hw
                  exact mem_warnings_push _ _ (by decide)
                | error m =>
                  rw [hdet] at h
                  injection h with hs hq hc hi hp hw hl
                  subst hc hw
                  refine mem_warnings_push _ _ ?_
                  cases hd2 : env.details with
                  | reject mr =>
                    rw [hd2] at hdet
                    injection hdet with hm
                    cases mr with
                    | none => simpa [← hm] using (by decide :
                        detailsFallbackMsg ≠ multipleMatchesMsg)
                    | some m2 => simpa [← hm] using hrej m2 hd2
                  | resolve r =>
                    rw [hd2] at hdet
                    simp only [fetchPlaceDetailsNew] at hdet
                    cases hr : r.ok with
                    | true => rw [hr] at hdet; simp at hdet
                    | false =>
                      rw [hr] at hdet
                      rw [if_neg (by decide : ¬((false : Bool) = true))] at hdet
                      injection hdet with hm
                      simpa [← hm] using detailsFailText_ne r.status r.bodyText

/-- C7 witness: on the concrete single-candidate success environment the
multiple-matches message is absent, matching length 1. -/
theorem post_multiple_matches_iff_witness :
    multipleMatchesMsg ∈ baseWarnings [toCandidate geoRecPid] ++ [detailsCaveatMsg]
      ↔ [toCandidate geoRecPid].length > 1 :=
  post_multiple_matches_iff postEnvOk 200 "1 Main St" [toCandidate geoRecPid]
    (selectIdx (some 5) [toCandidate geoRecPid].length) (some "blob")
    (baseWarnings [toCandidate geoRecPid] ++ [detailsCaveatMsg]) (some 7)
    (by decide) (fun _ hm => DetailsFetch.noConfusion hm)

/-- C5: an admitted, configured photo-proxy request whose resolved `photoName`
does not start with `"places/"` gets a 400 validation response, and the
handler issues no outbound fetch at all (the effects log is empty). -/
theorem get_bad_prefix_no_fetch (env : GetEnv) (p : String)
    (hrl : (rateLimit env.buckets env.ip env.now).2 = none)
    (hkey : strTruthy env.googleKey = true)
    (hpn : photoNameOf env = some p)
    (hpre : jsStartsWith p "places/" = false) :
    (GET env).1.status = 400 ∧ (GET env).2 = [] := by
  unfold GET
  rw [hrl, hkey]
  simp only [hpn]
  by_cases hp : (p == "") = true
  · rw [if_pos hp]
    exact ⟨rfl, rfl⟩
  · rw [if_neg hp, hpre]
    exact ⟨rfl, rfl⟩

/-- A GET environment on the JSON-protocol success path. -/
def getEnvJson : GetEnv :=
  { buckets := fun _ => [], ip := "c", now := 0, googleKey := some "k",
    qPhotoName := some "places/p1/photos/ph1", qName := none, qPhotoRef := none,
    qMaxWidthPx := none, qMaxwidth := none, qMaxHeightPx := none, qMaxheight := none,
    upstream := { status := 200, contentType := some "application/json; charset=utf-8",
                  jsonData := some { photoUri := JField.val "https://img.example/x" },
                  location := none, bytes := "" },
    media := { ok := true, contentType := some "image/png", bytes := "IMG" } }

/-- A GET environment whose photo name lacks the required prefix. -/
def getEnvBad : GetEnv := { getEnvJson with qPhotoName := some "notplaces/abc" }

/-- C5 witness: the concrete `notplaces/abc` request is rejected with 400 and
no outbound call. -/
theorem get_bad_prefix_no_fetch_witness :
    (GET getEnvBad).1.status = 400 ∧ (GET getEnvBad).2 = [] :=
  get_bad_prefix_no_fetch getEnvBad "notplaces/abc" (by decide) (by decide) rfl (by decide)

/-- C6: when the upstream photo call responds 2xx with a JSON content type,
the handler resolves `photoUri` from the body: a truthy `photoUri` triggers
exactly one secondary fetch of that URL and, on its success, a 200 with its
bytes and content type (502 when the secondary fetch fails); an absent,
`null` or empty `photoUri` — or an unparseable body — yields 502 with no
secondary fetch.  Under these hypotheses the redirect and direct-binary
branches are never taken. -/
theorem get_json_protocol (env : GetEnv) (p : String)
    (hrl : (rateLimit env.buckets env.ip env.now).2 = none)
    (hkey : strTruthy env.googleKey = true)
    (hpn : photoNameOf env = some p)
    (hp0 : (p == "") = false)
    (hpre : jsStartsWith p "places/" = true)
    (h2xx : statusOk env.upstream.status = true)
    (hct : includesSub (env.upstream.contentType.getD "") "application/json" = true) :
    (∀ d u, env.upstream.jsonData = some d → d.photoUri = JField.val u →
        (u == "") = false →
        (GET env).2
            = [FetchEvent.photoMedia p (maxWidthOf env) (maxHeightOf env),
               FetchEvent.mediaUrl u]
          ∧ (env.media.ok = true →
              (GET env).1 = binaryResponse env.media.contentType env.media.bytes)
          ∧ (env.media.ok = false → (GET env).1.status = 502))
      ∧ ((env.upstream.jsonData = none
            ∨ ∃ d, env.upstream.jsonData = some d
                ∧ (d.photoUri = JField.absent ∨ d.photoUri = JField.jnull
                    ∨ d.photoUri = JField.val "")) →
          (GET env).1.status = 502
            ∧ (GET env).2 = [FetchEvent.photoMedia p (maxWidthOf env) (maxHeightOf env)]) := by
  refine ⟨?_, ?_⟩
  · intro d u hd hu hu0
    refine ⟨?_, ?_, ?_⟩
    · simp only [GET, hrl, hkey, hpn, hp0, hpre, h2xx, hct, hd, hu, hu0]
      cases hm : env.media.ok <;> simp [hm]
    · intro hm
      simp [GET, hrl, hkey, hpn, hp0, hpre, h2xx, hct, hd, hu, hu0, hm]
    · intro hm
      simp [GET, hrl, hkey, hpn, hp0, hpre, h2xx, hct, hd, hu, hu0, hm]
  · intro hcase
    rcases hcase with hnone | ⟨d, hd, hcase⟩
    · constructor <;> simp [GET, hrl, hkey, hpn, hp0, hpre, h2xx, hct, hnone]
    · rcases hcase with hu | hu | hu <;> constructor <;>
        simp [GET, hrl, hkey, hpn, hp0, hpre, h2xx, hct, hd, hu]

/-- C6 witness: on the concrete JSON-protocol environment, the handler fetches
the media URL and returns its bytes with its content type. -/
theorem get_json_protocol_witness :
    (GET getEnvJson).2
        = [FetchEvent.photoMedia "places/p1/photos/ph1" (maxWidthOf getEnvJson)
             (maxHeightOf getEnvJson),
           FetchEvent.mediaUrl "https://img.example/x"]
      ∧ (GET getEnvJson).1 = binaryResponse (some "image/png") "IMG" :=
  ⟨((get_json_protocol getEnvJson "places/p1/photos/ph1" (by decide) (by decide) rfl
      (by decide) (by decide) (by decide) (by decide)).1
      { photoUri := JField.val "https://img.example/x" } "https://img.example/x" rfl rfl
      (by decide)).1,
   ((get_json_protocol getEnvJson "places/p1/photos/ph1" (by decide) (by decide) rfl
      (by decide) (by decide) (by decide) (by decide)).1
      { photoUri := JField.val "https://img.example/x" } "https://img.example/x" rfl rfl
      (by decide)).2.1 rfl⟩

/-- C9: every 200 photo-proxy response — on all three protocol branches —
carries the `cache-control: public, max-age=86400` header. -/
theorem get_cache_header (env : GetEnv) (h : (GET env).1.status = 200) :
    (GET env).1.cacheControl = some cacheValue := by
  cases hrl : (rateLimit env.buckets env.ip env.now).2 with
  | some rl => simp [GET, hrl] at h
  | none =>
  cases hkey : strTruthy env.googleKey with
  | false => simp [GET, hrl, hkey] at h
  | true =>
  cases hpn : photoNameOf env with
  | none => simp [GET, hrl, hkey, hpn] at h
  | some p =>
  by_cases hp : (p == "") = true
  · simp [GET, hrl, hkey, hpn, hp] at h
  · cases hpre : jsStartsWith p "places/" with
    | false => simp [GET, hrl, hkey, hpn, hp, hpre] at h
    | true =>
    by_cases hj : statusOk env.upstream.status = true
        ∧ includesSub (env.upstream.contentType.getD "") "application/json" = true
    · cases hd : env.upstream.jsonData with
      | none => simp [GET, hrl, hkey, hpn, hp, hpre, hj, hd] at h
      | some d =>
      cases hu : d.photoUri with
      | absent => simp [GET, hrl, hkey, hpn, hp, hpre, hj, hd, hu] at h
      | jnull => simp [GET, hrl, hkey, hpn, hp, hpre, hj, hd, hu] at h
      | val u =>
      by_cases hu0 : (u == "") = true
      · simp [GET, hrl, hkey, hpn, hp, hpre, hj, hd, hu, hu0] at h
      · cases hm : env.media.ok with
        | false => simp [GET, hrl, hkey, hpn, hp, hpre, hj, hd, hu, hu0, hm] at h
        | true =>
          simp [GET, hrl, hkey, hpn, hp, hpre, hj, hd, hu, hu0, hm, binaryResponse]
    · by_cases hr : statusRedirect env.upstream.status = true
      · cases hloc : env.upstream.location with
        | none => simp [GET, hrl, hkey, hpn, hp, hpre, hj, hr, hloc] at h
        | some loc =>
        by_cases hl0 : (loc == "") = true
        · simp [GET, hrl, hkey, hpn, hp, hpre, hj, hr, hloc, hl0] at h
        · cases hm : env.media.ok with
          | false => simp [GET, hrl, hkey, hpn, hp, hpre, hj, hr, hloc, hl0, hm] at h
          | true =>
            simp [GET, hrl, hkey, hpn, hp, hpre, hj, hr, hloc, hl0, hm, binaryResponse]
      · by_cases ho : statusOk env.upstream.status = true
        · have hinc : includesSub (env.upstream.contentType.getD "") "application/json"
              = false := by
            cases hcv : includesSub (env.upstream.contentType.getD "") "application/json" with
            | false => rfl
            | true => exact absurd ⟨ho, hcv⟩ hj
          simp [GET, hrl, hkey, hpn, hp, hpre, hj, hr, ho, hinc, binaryResponse]
        · simp [GET, hrl, hkey, hpn, hp, hpre, hj, hr, ho] at h

/-- C9 witness: the concrete JSON-branch 200 response carries the cache
header. -/
theorem get_cache_header_witness :
    (GET getEnvJson).1.cacheControl = some cacheValue :=
  get_cache_header getEnvJson (by decide)

end Lookup
